import Mathlib

/-!
Verification development for the ASR orchestrator (src/backend/src/orchestrator.py).

The embedding models the orchestration engine faithfully:
* JSON-like values (`JVal`) stand for the loosely-typed dictionaries the
  Python code threads between pipeline stages; dictionary access with
  brackets is `pyGetItem` (may fail like a Python KeyError, modelled with
  `Except`), `.get` with a default is `pyGetD` (total).
* External collaborators (backend transcription services, the Gemini
  generation service, the Tavily web-search service, the phonemizer) are
  oracles passed in as parameters; the orchestrator's control flow around
  their replies is translated line by line.
* Wall-clock fields (timestamps, processing times) of the Python response
  dictionaries are outside the embedding: no claim mentions them.
-/

/-- JSON-like values, as produced by `json.loads` / Gemini function-call
arguments.  Numbers are modelled as rationals. -/
inductive JVal where
  | jnull
  | jbool (b : Bool)
  | jnum (q : Rat)
  | jstr (s : String)
  | jarr (xs : List JVal)
  | jobj (kvs : List (String × JVal))

/-- Python truthiness of a JSON value (`if v:`). -/
def pyTruthy : JVal → Bool
  | JVal.jnull => false
  | JVal.jbool b => b
  | JVal.jnum q => if q = 0 then false else true
  | JVal.jstr s => if s = "" then false else true
  | JVal.jarr xs => !xs.isEmpty
  | JVal.jobj kvs => !kvs.isEmpty

/-- Python `d[k]` on a dict: raises `KeyError` when the key is absent. -/
def pyGetItem (o : List (String × JVal)) (k : String) : Except String JVal :=
  match List.lookup k o with
  | some v => Except.ok v
  | none => Except.error ("KeyError: " ++ k)

/-- Python `d.get(k, default)`. -/
def pyGetD (o : List (String × JVal)) (k : String) (d : JVal) : JVal :=
  (List.lookup k o).getD d

/-- Whether a dict carries a key (`k in d`). -/
def containsKey (o : List (String × JVal)) (k : String) : Bool :=
  (List.lookup k o).isSome

/-- Python iteration over a JSON value (`for x in v`): lists yield their
elements, strings their characters, dicts their keys; anything else raises
a TypeError. -/
def pyIter : JVal → Except String (List JVal)
  | JVal.jarr xs => Except.ok xs
  | JVal.jstr s => Except.ok (s.toList.map (fun c => JVal.jstr (String.mk [c])))
  | JVal.jobj kvs => Except.ok (kvs.map (fun p => JVal.jstr p.1))
  | _ => Except.error "TypeError: object is not iterable"

/-- Elements handed to `str.join` must all be strings. -/
def pyStrElems : List JVal → Except String (List String)
  | [] => Except.ok []
  | JVal.jstr s :: rest => do
      let t ← pyStrElems rest
      pure (s :: t)
  | _ :: _ => Except.error "TypeError: sequence item is not str"

/-- Python `", ".join(xs)`. -/
def pyJoinComma (xs : List JVal) : Except String String := do
  let ss ← pyStrElems xs
  pure (String.intercalate ", " ss)

/-- Python `v.keys()`: only dicts have it. -/
def pyDictKeys : JVal → Except String (List String)
  | JVal.jobj kvs => Except.ok (kvs.map Prod.fst)
  | _ => Except.error "AttributeError: keys"

/-- Python `str(v)` as used inside prompt f-strings.  Only the string case
matters to any claim; the display of the remaining cases is abstracted. -/
def pyStr : JVal → String
  | JVal.jstr s => s
  | JVal.jnum q => toString q
  | JVal.jbool b => if b then "True" else "False"
  | JVal.jnull => "None"
  | JVal.jarr _ => "<list>"
  | JVal.jobj _ => "<dict>"

/-- Python `s.split()`: split on whitespace runs, dropping empty pieces. -/
def pySplitWs (s : String) : List String :=
  (s.split Char.isWhitespace).filter (fun w => w ≠ "")

/-- Did an `Except`-typed computation raise (a Python exception escaping)? -/
def raisesException {α : Type} : Except String α → Bool
  | Except.error _ => true
  | Except.ok _ => false

/-! ## Parallel dispatch (`ASROrchestrator.transcribe_parallel`) -/

/-- One per-backend outcome, the dictionary built by
`transcribe_with_service` (or the exception wrapper around
`asyncio.gather`).  Success results carry a transcription; error results
carry an error message.  The `run` oracle below produces these, covering
HTTP success, HTTP error, timeout and transport exceptions alike. -/
structure BackendResult where
  status : String
  transcription : Option String
  errorMessage : Option String

/-- The response dictionary of `transcribe_parallel` (wall-clock fields
omitted). -/
structure DispatchEnvelope where
  audioFilename : String
  modelsRequested : List String
  healthyModels : List String
  successfulModels : Nat
  errorMarker : Option String
  results : List (String × BackendResult)

/-- Which external calls the dispatcher issued, in order. -/
structure DispatchTrace where
  healthChecked : List String
  transcribed : List String

/-- Python dict insertion `d[k] = v`: replace the first binding of `k`,
else append. -/
def dictInsert {α : Type} : List (String × α) → String → α → List (String × α)
  | [], k, v => [(k, v)]
  | (k0, v0) :: rest, k, v =>
      if k0 = k then (k, v) :: rest else (k0, v0) :: dictInsert rest k v

/-- The `for model in healthy_models: results[model] = ...` loop. -/
def buildResults (run : String → BackendResult) :
    List String → List (String × BackendResult) → List (String × BackendResult)
  | [], d => d
  | m :: ms, d => buildResults run ms (dictInsert d m (run m))

/-- The `ValueError` message of `transcribe_parallel`. -/
def invalidModelsMsg (invalid : List String) : String :=
  "Invalid models: [" ++ String.intercalate ", " invalid ++ "]"

/-- The explicit marker returned when the health gate rejects everything. -/
def noHealthyMsg : String := "No healthy ASR services available"

/-- `ASROrchestrator.transcribe_parallel`.  `registry` is the key set of
`self.model_services`; `health` is the outcome of `health_check_service`
per model (it never raises); `run` is the outcome of
`transcribe_with_service` per model (it never raises either — every
failure mode is folded into an error-status `BackendResult`).
`Except.error` models the raised `ValueError`; the trace records which
models were health-checked and which were sent a transcription request. -/
def transcribe_parallel (registry : List String) (health : String → Bool)
    (run : String → BackendResult) (filename : String)
    (models? : Option (List String)) :
    Except String DispatchEnvelope × DispatchTrace :=
  let models := models?.getD registry
  let invalid := models.filter (fun m => !registry.contains m)
  if invalid.isEmpty then
    let healthy := models.filter (fun m => health m)
    if healthy.isEmpty then
      (Except.ok
        { audioFilename := filename
          modelsRequested := models
          healthyModels := []
          successfulModels := 0
          errorMarker := some noHealthyMsg
          results := [] },
       { healthChecked := models, transcribed := [] })
    else
      let results := buildResults run healthy []
      (Except.ok
        { audioFilename := filename
          modelsRequested := models
          healthyModels := healthy
          successfulModels :=
            (results.filter (fun p => p.2.status == "success")).length
          errorMarker := none
          results := results },
       { healthChecked := models, transcribed := healthy })
  else
    (Except.error (invalidModelsMsg invalid),
     { healthChecked := [], transcribed := [] })

/-- Key set of `self.model_services` (insertion order). -/
def defaultModelServices : List String :=
  ["whisper", "wav2vec", "moonshine", "mesolitica", "vosk", "allosaurus"]

/-- The response shaping of the `POST /transcribe` endpoint
(`transcribe_audio`): keep only success results, mapped to their
transcription strings. -/
def transcribe_audio_response (results : List (String × BackendResult)) :
    List (String × String) :=
  results.filterMap (fun p =>
    if p.2.status == "success" then some (p.1, p.2.transcription.getD "")
    else none)

/-! ## The external generation and search collaborators -/

/-- The value `call_gemini_api` hands back to a stage: an error status
(HTTP failure, exception, or missing API key), a plain-text success, or a
named function call with a JSON argument object. -/
inductive GeminiReply where
  | failed (message : String)
  | text (s : String)
  | fnCall (name : String) (args : List (String × JVal))

/-- Does the reply carry a function call?  Matches the Python test
`result.get("status") == "success" and "function_call" in result`. -/
def isFnCall : GeminiReply → Bool
  | GeminiReply.fnCall _ _ => true
  | _ => false

/-- The value `search_tavily` returns for one query: skipped (no API
key), a success with an answer and (top-2-truncated) result list, or an
error.  `search_tavily` itself never raises. -/
inductive TavilyReply where
  | skipped (message : String)
  | answered (answer : String) (results : List JVal)
  | errored (message : String)

/-- The three generation calls the consensus pipeline can make, as an
oracle fixed per request. -/
structure GeminiOracle where
  consensusReply : GeminiReply
  searchReply : GeminiReply
  validationReply : GeminiReply

/-! ## The consensus pipeline (`execute_consensus_pipeline`) -/

/-- One of the two A/B options of `pronoun_consolidation`. -/
structure PronounOption where
  transcription : JVal
  label : String
  description : String
  confidence : JVal
  reasoning : String

/-- The success dictionary `execute_consensus_pipeline` returns
(wall-clock metadata omitted). -/
structure PipelineSuccess where
  primary : JVal
  optionA : PronounOption
  optionB : PronounOption
  alternatives : List (String × String)
  consensusData : List (String × JVal)
  validationData : List (String × JVal)
  searchData : List (String × JVal)
  confidence : JVal
  modelsUsed : Nat
  audioFilename : String

/-- The pipeline's normal return value: either the explicit error
dictionary built when step 1 fails ("Failed to establish consensus",
carrying the failed reply as debug info), or the success dictionary. -/
inductive PipelineOutput where
  | consensusFailure (debug : GeminiReply)
  | success (r : PipelineSuccess)

/-- External calls made while the pipeline ran: one web search per entry
of `webSearches` (with its outcome), and whether the step-3 validation
generation call was issued. -/
structure PipelineTrace where
  webSearches : List (JVal × TavilyReply)
  validationCalled : Bool

/-- `ASROrchestrator._format_search_explanations`. -/
def formatSearchExplanations (sd vd : List (String × JVal)) :
    Except String String := do
  let e1 ←
    (let q := pyGetD sd "search_queries" JVal.jnull
     if pyTruthy q then do
       let xs ← pyIter q
       let s ← pyJoinComma xs
       pure ["Verified Search Terms: " ++ s]
     else pure [])
  let e2 ←
    (let vt := pyGetD vd "validated_terms" JVal.jnull
     if pyTruthy vt then do
       let ks ← pyDictKeys vt
       pure ["Confirmed: " ++ String.intercalate ", " ks]
     else pure [])
  let e3 ←
    (let cm := pyGetD vd "corrections_made" JVal.jnull
     if pyTruthy cm then do
       let xs ← pyIter cm
       let s ← pyJoinComma xs
       pure ["Corrected: " ++ s]
     else pure [])
  let es := e1 ++ e2 ++ e3
  pure (String.intercalate " • "
    (if es.isEmpty then ["No proper nouns requiring web verification found"]
     else es))

/-- Step-2 fallback dictionary (`search_data` when the search-analysis
call fails or returns no function call). -/
def searchFallback : List (String × JVal) :=
  [("search_queries", JVal.jarr []),
   ("search_reasoning", JVal.jstr "No terms identified for validation")]

/-- The effective `search_data` after step 2. -/
def searchStageData (r : GeminiReply) : List (String × JVal) :=
  match r with
  | GeminiReply.fnCall _ args => args
  | _ => searchFallback

/-- Step-3 fallback dictionary: pass the consensus transcription through
with the model-agreement score as confidence.  Reads
`consensus_data['consensus_transcription']` and
`consensus_data['model_agreement_score']` with brackets, as the source
does. -/
def validationFallback (cd : List (String × JVal)) :
    Except String (List (String × JVal)) := do
  let ct ← pyGetItem cd "consensus_transcription"
  let ms ← pyGetItem cd "model_agreement_score"
  pure [("validated_terms", JVal.jobj []),
        ("corrections_made", JVal.jarr []),
        ("final_consensus", ct),
        ("validation_confidence", ms)]

/-- Step 3 of the pipeline.  When `search_data` has a truthy
`search_queries` value the code performs one Tavily search per query,
builds the validation prompt (whose f-string indexes `consensus_data` and
`search_data` with brackets), issues the validation generation call, and
uses its function-call arguments verbatim on success or the deterministic
fallback on failure.  With no queries it skips every network call and
takes the fallback directly.  Returns (searches performed, validated
data, whether the validation generation call was made). -/
def webValidationStep (tavily : JVal → TavilyReply) (vr : GeminiReply)
    (cd sd : List (String × JVal)) :
    Except String
      (List (JVal × TavilyReply) × List (String × JVal) × Bool) :=
  let sq := pyGetD sd "search_queries" JVal.jnull
  if pyTruthy sq then do
    let qs ← pyIter sq
    let searches := qs.map (fun q => (q, tavily q))
    let _ ← pyGetItem cd "consensus_transcription"
    let _ ← pyGetItem cd "primary_model"
    let _ ← pyGetItem cd "model_agreement_score"
    let _ ← pyGetItem sd "search_queries"
    let _ ← pyGetItem sd "search_reasoning"
    match vr with
    | GeminiReply.fnCall _ vargs => pure (searches, vargs, true)
    | _ => do
        let vd ← validationFallback cd
        pure (searches, vd, true)
  else do
    let vd ← validationFallback cd
    pure ([], vd, false)

/-- The `alternatives` map of the result: successful models other than
allosaurus, mapped to their transcriptions. -/
def alternativesOf (env : DispatchEnvelope) : List (String × String) :=
  env.results.filterMap (fun p =>
    if p.2.status == "success" && !(p.1 == "allosaurus") then
      some (p.1, p.2.transcription.getD "")
    else none)

/-- The `pronoun_consolidation` A/B block, with its bracket accesses in
source order. -/
def pronounConsolidationStep (env : DispatchEnvelope)
    (cd vd sd : List (String × JVal)) :
    Except String (PronounOption × PronounOption) := do
  let ct ← pyGetItem cd "consensus_transcription"
  let ms ← pyGetItem cd "model_agreement_score"
  let pm ← pyGetItem cd "primary_model"
  let fc ← pyGetItem vd "final_consensus"
  let vc ← pyGetItem vd "validation_confidence"
  let reasonB ← formatSearchExplanations sd vd
  pure
    ({ transcription := ct
       label := "AI Consensus"
       description := "Based on agreement between " ++
         toString env.successfulModels ++ " speech recognition models"
       confidence := ms
       reasoning := "Primary model: " ++ pyStr pm },
     { transcription := fc
       label := "With Spelling Context"
       description := "AI consensus with proper noun spelling verification"
       confidence := vc
       reasoning := reasonB })

/-- `ASROrchestrator.execute_consensus_pipeline`.  Step 1: if the
consensus generation call fails or returns no function call, the code
returns the explicit error dictionary (no fallback transcript).
Otherwise the function-call arguments become `consensus_data`
unvalidated; the step-2 prompt immediately indexes
`consensus_data['consensus_transcription']`; step 2's failure produces
the search fallback; step 3 runs as `webValidationStep`; finally the A/B
consolidation and the result dictionary are assembled. -/
def execute_consensus_pipeline (g : GeminiOracle) (tavily : JVal → TavilyReply)
    (env : DispatchEnvelope) :
    Except String (PipelineOutput × PipelineTrace) :=
  match g.consensusReply with
  | GeminiReply.fnCall _ cargs => do
      let _ ← pyGetItem cargs "consensus_transcription"
      let sd := searchStageData g.searchReply
      let (searches, vd, validated) ← webValidationStep tavily g.validationReply cargs sd
      let (optA, optB) ← pronounConsolidationStep env cargs vd sd
      let primary ← pyGetItem cargs "consensus_transcription"
      let confidence ← pyGetItem cargs "model_agreement_score"
      pure (PipelineOutput.success
        { primary := primary
          optionA := optA
          optionB := optB
          alternatives := alternativesOf env
          consensusData := cargs
          validationData := vd
          searchData := sd
          confidence := confidence
          modelsUsed := env.successfulModels
          audioFilename := env.audioFilename },
        { webSearches := searches, validationCalled := validated })
  | r =>
      Except.ok (PipelineOutput.consensusFailure r,
        { webSearches := [], validationCalled := false })

/-- `ASROrchestrator.extract_autocomplete_data`: (final transcription,
confidence, detected particles, alternatives). -/
def extract_autocomplete_data (r : PipelineSuccess) :
    JVal × JVal × List JVal × List (String × String) :=
  (r.primary, r.confidence, [], r.alternatives)

/-! ## Observers on pipeline outcomes -/

/-- Did the pipeline complete with the success dictionary? -/
def pipelineSucceeds : Except String (PipelineOutput × PipelineTrace) → Bool
  | Except.ok (PipelineOutput.success _, _) => true
  | _ => false

/-- The `final_consensus` the pipeline reports (the validated
transcript), when it is a string. -/
def validatedTranscriptOf :
    Except String (PipelineOutput × PipelineTrace) → Option String
  | Except.ok (PipelineOutput.success r, _) =>
      match List.lookup "final_consensus" r.validationData with
      | some (JVal.jstr s) => some s
      | _ => none
  | _ => none

/-- The `validation_confidence` the pipeline reports. -/
def validationConfidenceOf :
    Except String (PipelineOutput × PipelineTrace) → Option JVal
  | Except.ok (PipelineOutput.success r, _) =>
      List.lookup "validation_confidence" r.validationData
  | _ => none

/-- The consensus transcription recorded in `consensus_data`, when it is
a string. -/
def consensusTranscriptOf :
    Except String (PipelineOutput × PipelineTrace) → Option String
  | Except.ok (PipelineOutput.success r, _) =>
      match List.lookup "consensus_transcription" r.consensusData with
      | some (JVal.jstr s) => some s
      | _ => none
  | _ => none

/-- The queries sent to the web-search service, in call order. -/
def webQueriesOf :
    Except String (PipelineOutput × PipelineTrace) → Option (List JVal)
  | Except.ok (_, tr) => some (tr.webSearches.map Prod.fst)
  | _ => none

/-- The outcomes of the web-search calls, in call order. -/
def webOutcomesOf :
    Except String (PipelineOutput × PipelineTrace) → Option (List TavilyReply)
  | Except.ok (_, tr) => some (tr.webSearches.map Prod.snd)
  | _ => none

/-- Whether the step-3 validation generation call was issued. -/
def validationCalledOf :
    Except String (PipelineOutput × PipelineTrace) → Option Bool
  | Except.ok (_, tr) => some tr.validationCalled
  | _ => none

/-! ## Particle detection (`detect_discourse_particles_with_ipa`) -/

/-- The module-level `DISCOURSE_PARTICLES` registry (insertion order). -/
def DISCOURSE_PARTICLES : List (String × List String) :=
  [("malaysian", ["la", "lor", "leh", "mah", "wan", "kan", "ya", "cis", "wei", "nia"]),
   ("singaporean", ["lah", "leh", "lor", "meh", "sia", "ceh", "hor", "what", "liao", "arh"]),
   ("filipino", ["po", "opo", "ano", "kasi", "naman"]),
   ("southeast_asian_combined",
     ["la", "lor", "leh", "mah", "wan", "kan", "ya", "cis", "wei", "nia", "lah",
      "meh", "sia", "ceh", "hor", "what", "liao", "arh", "po", "opo", "ano",
      "kasi", "naman"]),
   ("american", ["dude", "awesome", "totally", "gonna", "wanna", "like", "you know", "whatever"]),
   ("canadian", ["eh", "about", "sorry", "hoser", "double-double", "toque", "loonie", "toonie"]),
   ("north_american_combined",
     ["dude", "awesome", "totally", "gonna", "wanna", "eh", "about", "sorry",
      "hoser", "double-double"]),
   ("british", ["innit", "mate", "cheers", "blimey", "brilliant"]),
   ("irish", ["craic", "grand", "feck", "sound", "banter", "fair play", "deadly", "class"]),
   ("scottish", ["aye", "wee", "ken", "bonnie", "dinnae", "cannae", "och", "blether"]),
   ("british_isles_combined",
     ["innit", "mate", "cheers", "blimey", "brilliant", "craic", "grand",
      "feck", "sound", "aye", "wee", "ken"]),
   ("australian", ["mate", "bloody", "fair dinkum", "no worries", "crikey", "g\x27day", "she\x27ll be right"]),
   ("new_zealand", ["choice", "yeah nah", "sweet as", "bro", "chur", "she\x27ll be right", "good as gold"]),
   ("oceanic_combined",
     ["mate", "bloody", "fair dinkum", "no worries", "crikey", "choice",
      "yeah nah", "sweet as", "bro", "chur"]),
   ("indian", ["na", "yaar", "bhai", "achha", "bas"]),
   ("south_african", ["ag", "boet", "lekker", "shame", "braai", "eish", "howzit", "ja"]),
   ("jamaican", ["bredrin", "big up", "irie", "seen", "wha gwaan"]),
   ("lebanese", ["yalla", "habibi", "khalas", "inshallah", "mashallah"]),
   ("emirati", ["yalla", "habibi", "khalas", "wallah", "mashallah"]),
   ("middle_eastern_combined", ["yalla", "habibi", "khalas", "inshallah", "mashallah", "wallah"]),
   ("unknown", ["ah", "um", "er", "uh", "hmm", "oh", "eh", "ya", "yeah", "okay"]),
   ("none", [])]

/-- One entry of the allosaurus `timed_phonemes` diagnostics list. -/
structure TimedPhoneme where
  phoneme : String
  startTime : Rat
  endTime : Rat

/-- The dictionary `prepare_particle_analysis_data` returns.  The final
three fields are the fixed empties the source returns ("let LLM determine
outliers and particles from raw data"). -/
structure ParticleAnalysis where
  consensusText : String
  expectedPhonemes : List String
  allosaurusPhonemes : List String
  timingData : List TimedPhoneme
  totalDuration : Rat
  speechRate : Rat
  phonemeCount : Nat
  outlierPhonemes : List JVal
  detectedParticles : List JVal
  particleDetails : List JVal

/-- `ASROrchestrator.prepare_particle_analysis_data`.  `phonemize` is the
`get_expected_phonemes` oracle (the phonemizer library call; its
exception fallback to `[]` is one possible oracle value). -/
def prepare_particle_analysis_data (phonemize : String → List String)
    (consensusText : String) (allosaurusPhonemes : List String)
    (timingData : List TimedPhoneme) : ParticleAnalysis :=
  let expected := phonemize consensusText
  let totalDuration : Rat :=
    match timingData.getLast?, timingData.head? with
    | some tl, some th => tl.endTime - th.startTime
    | _, _ => 0
  let speechRate : Rat :=
    if 0 < totalDuration then (allosaurusPhonemes.length : Rat) / totalDuration
    else 0
  { consensusText := consensusText
    expectedPhonemes := expected
    allosaurusPhonemes := allosaurusPhonemes
    timingData := timingData
    totalDuration := totalDuration
    speechRate := speechRate
    phonemeCount := allosaurusPhonemes.length
    outlierPhonemes := []
    detectedParticles := []
    particleDetails := [] }

/-- `ASROrchestrator.detect_discourse_particles_with_ipa`.  The function
never raises: it returns the dictionary of the branch taken.  With truthy
`human_particles` the human selections are used directly; otherwise the
step-4A generation call decides: on a function-call reply its
`particles_found` are forwarded verbatim (regardless of the timing
input), and on any failure the fallback is the empty particle list with
reasoning "No particles detected". -/
def detect_discourse_particles_with_ipa (phonemize : String → List String)
    (reply4a : GeminiReply) (consensusTranscription : String)
    (allosaurusTranscription : String) (allosaurusTiming : List TimedPhoneme)
    (humanParticles : Option (List (String × JVal)))
    (accentHint : Option String) : List (String × JVal) :=
  let phonemesList :=
    if allosaurusTranscription = "" then []
    else pySplitWs allosaurusTranscription
  let _analysis := prepare_particle_analysis_data phonemize
    consensusTranscription phonemesList allosaurusTiming
  let _accentParticles : List (String × List String) :=
    match accentHint with
    | some h =>
        match List.lookup h DISCOURSE_PARTICLES with
        | some ps => [(h, ps)]
        | none => DISCOURSE_PARTICLES
    | none => DISCOURSE_PARTICLES
  let humanTruthy :=
    match humanParticles with
    | some hp => !hp.isEmpty
    | none => false
  if humanTruthy then
    let hp := humanParticles.getD []
    [("potential_particles", pyGetD hp "particles" (JVal.jarr [])),
     ("particle_positions", pyGetD hp "positions" (JVal.jobj [])),
     ("reasoning", JVal.jstr "Human-selected particles")]
  else
    match reply4a with
    | GeminiReply.fnCall _ args =>
        [("potential_particles", pyGetD args "particles_found" (JVal.jarr [])),
         ("llm_recommended_transcription",
           pyGetD args "llm_recommended_transcription" (JVal.jstr "")),
         ("reasoning", JVal.jstr "LLM-detected particles")]
    | _ =>
        [("potential_particles", JVal.jarr []),
         ("llm_recommended_transcription", JVal.jstr ""),
         ("reasoning", JVal.jstr "No particles detected")]

/-- The step-4B block of the `/transcribe-with-particles` endpoint: on a
function-call reply the placement arguments are merged; on failure the
fallback `particle_data` carries an empty `detected_particles` list and
empty positions. -/
def step4b_particle_data (reply4b : GeminiReply) (finalConsensus : JVal)
    (analysis : ParticleAnalysis)
    (ipaInterpretation : List (String × JVal)) : List (String × JVal) :=
  match reply4b with
  | GeminiReply.fnCall _ args =>
      [("base_transcription", finalConsensus),
       ("expected_phonemes", JVal.jarr (analysis.expectedPhonemes.map JVal.jstr)),
       ("outlier_phonemes", JVal.jarr analysis.outlierPhonemes),
       ("detected_particles", pyGetD args "detected_particles" (JVal.jarr [])),
       ("particle_positions", pyGetD args "particle_positions" (JVal.jobj [])),
       ("ipa_interpretation", JVal.jobj ipaInterpretation),
       ("placement_reasoning", pyGetD args "placement_reasoning" (JVal.jstr ""))]
  | _ =>
      [("base_transcription", finalConsensus),
       ("expected_phonemes", JVal.jarr (analysis.expectedPhonemes.map JVal.jstr)),
       ("outlier_phonemes", JVal.jarr analysis.outlierPhonemes),
       ("detected_particles", JVal.jarr []),
       ("particle_positions", JVal.jobj []),
       ("ipa_interpretation", JVal.jobj ipaInterpretation)]

/-- The particle list a particle-detection outcome dictionary reports. -/
def particlesOf (o : List (String × JVal)) : Option (List JVal) :=
  match List.lookup "potential_particles" o with
  | some (JVal.jarr xs) => some xs
  | _ => none

/-! ## Well-formedness of generation replies

The source performs no required-field validation on a returned function
call; these predicates state the conditions under which its unchecked
field accesses happen to succeed. -/

/-- Is the value a JSON array of strings? -/
def strListB : JVal → Bool
  | JVal.jarr xs => xs.all (fun v => match v with | JVal.jstr _ => true | _ => false)
  | _ => false

/-- The consensus reply carries the three fields the later code indexes. -/
def consensusArgsOK : GeminiReply → Bool
  | GeminiReply.fnCall _ a =>
      containsKey a "consensus_transcription" &&
      containsKey a "model_agreement_score" &&
      containsKey a "primary_model"
  | _ => false

/-- The search reply is safe to consume: either its query value is falsy,
or it is a string list and the reasoning field is present. -/
def searchReplyOK : GeminiReply → Bool
  | GeminiReply.fnCall _ a =>
      let q := pyGetD a "search_queries" JVal.jnull
      !pyTruthy q || (strListB q && containsKey a "search_reasoning")
  | _ => true

/-- A `validated_terms` value on which `.keys()` will not raise. -/
def validatedTermsOK (v : JVal) : Bool :=
  !pyTruthy v || (match v with | JVal.jobj _ => true | _ => false)

/-- A value on which `", ".join(...)` will not raise. -/
def joinableOK (v : JVal) : Bool := !pyTruthy v || strListB v

/-- The validation reply is safe to consume. -/
def validationReplyOK : GeminiReply → Bool
  | GeminiReply.fnCall _ a =>
      containsKey a "final_consensus" &&
      containsKey a "validation_confidence" &&
      validatedTermsOK (pyGetD a "validated_terms" JVal.jnull) &&
      joinableOK (pyGetD a "corrections_made" JVal.jnull)
  | _ => true

/-! ## Concrete fixtures used by counterexamples and witnesses -/

/-- A successful backend result. -/
def resOk (t : String) : BackendResult :=
  { status := "success", transcription := some t, errorMessage := none }

/-- A failed backend result. -/
def resErr (e : String) : BackendResult :=
  { status := "error", transcription := none, errorMessage := some e }

/-- The spec's own example envelope: two successful backends `a`, `b`. -/
def abEnv : DispatchEnvelope :=
  { audioFilename := "clip.wav"
    modelsRequested := ["a", "b"]
    healthyModels := ["a", "b"]
    successfulModels := 2
    errorMarker := none
    results := [("a", resOk "hello world"), ("b", resOk "hello word")] }

/-- An oracle whose consensus generation call fails outright. -/
def failingConsensusOracle : GeminiOracle :=
  { consensusReply := GeminiReply.failed "generation service unavailable"
    searchReply := GeminiReply.failed "unused"
    validationReply := GeminiReply.failed "unused" }

/-- A web-search oracle that always errors. -/
def downTavily : JVal → TavilyReply :=
  fun _ => TavilyReply.errored "connection refused"

/-- A web-search oracle that always answers. -/
def okTavily : JVal → TavilyReply :=
  fun _ => TavilyReply.answered "background information" []

/-- A consensus reply that returns a function call but omits the required
`consensus_transcription` field. -/
def missingFieldOracle : GeminiOracle :=
  { consensusReply := GeminiReply.fnCall "establish_basic_consensus"
      [("model_agreement_score", JVal.jnum 1),
       ("primary_model", JVal.jstr "whisper")]
    searchReply := GeminiReply.failed "unused"
    validationReply := GeminiReply.failed "unused" }

/-- A well-formed consensus function call for "hello world". -/
def helloConsensusReply : GeminiReply :=
  GeminiReply.fnCall "establish_basic_consensus"
    [("consensus_transcription", JVal.jstr "hello world"),
     ("model_agreement_score", JVal.jnum 1),
     ("primary_model", JVal.jstr "a")]

/-- Oracle for the web-validation counterexample: one search query, all
searches will fail, yet the validation call succeeds and rewrites the
transcript. -/
def overrideOracle : GeminiOracle :=
  { consensusReply := helloConsensusReply
    searchReply := GeminiReply.fnCall "identify_search_worthy_terms"
      [("search_queries", JVal.jarr [JVal.jstr "hello world origin"]),
       ("search_reasoning", JVal.jstr "verify the phrase")]
    validationReply := GeminiReply.fnCall "validate_with_web_context"
      [("validated_terms", JVal.jobj []),
       ("corrections_made", JVal.jarr []),
       ("final_consensus", JVal.jstr "hello there"),
       ("validation_confidence", JVal.jnum 1)] }

/-- Oracle whose search-analysis stage yields four queries. -/
def fourQueryOracle : GeminiOracle :=
  { consensusReply := helloConsensusReply
    searchReply := GeminiReply.fnCall "identify_search_worthy_terms"
      [("search_queries", JVal.jarr
          [JVal.jstr "q one", JVal.jstr "q two", JVal.jstr "q three", JVal.jstr "q four"]),
       ("search_reasoning", JVal.jstr "four uncertain terms")]
    validationReply := GeminiReply.fnCall "validate_with_web_context"
      [("validated_terms", JVal.jobj []),
       ("corrections_made", JVal.jarr []),
       ("final_consensus", JVal.jstr "hello world"),
       ("validation_confidence", JVal.jnum 1)] }

/-- Oracle whose search stage legitimately finds nothing. -/
def noQueryOracle : GeminiOracle :=
  { consensusReply := helloConsensusReply
    searchReply := GeminiReply.fnCall "identify_search_worthy_terms"
      [("search_queries", JVal.jarr []),
       ("search_reasoning", JVal.jstr "transcript is unambiguous")]
    validationReply := GeminiReply.failed "unused" }

/-- Oracle where searches would run but the validation call fails. -/
def validationDownOracle : GeminiOracle :=
  { consensusReply := helloConsensusReply
    searchReply := GeminiReply.fnCall "identify_search_worthy_terms"
      [("search_queries", JVal.jarr [JVal.jstr "hello world origin"]),
       ("search_reasoning", JVal.jstr "verify the phrase")]
    validationReply := GeminiReply.failed "HTTP 500" }

/-- A phonemizer oracle (unused content-wise by any claim). -/
def noPhonemize : String → List String := fun _ => []

/-- A step-4A reply that reports one particle even though the timing
input is empty. -/
def hallucinatingDetectionReply : GeminiReply :=
  GeminiReply.fnCall "find_discourse_particles"
    [("particles_found", JVal.jarr
        [JVal.jobj
          [("particle", JVal.jstr "lah"),
           ("ipa", JVal.jstr "la"),
           ("confidence", JVal.jnum (9/10)),
           ("word_index", JVal.jnum 2),
           ("character_position", JVal.jnum 10),
           ("region", JVal.jstr "singaporean")]]),
     ("llm_recommended_transcription", JVal.jstr "ok can lah")]

/-- A registry/health/run fixture: backends `a` and `b`, only `a`
healthy, both succeeding when called. -/
def abRegistry : List String := ["a", "b"]

/-- Health oracle: only backend `a` is healthy. -/
def onlyAHealthy : String → Bool := fun m => m == "a"

/-- Health oracle: nothing is healthy. -/
def noneHealthy : String → Bool := fun _ => false

/-- Run oracle: every called backend succeeds with a fixed transcript. -/
def alwaysRun : String → BackendResult := fun m => resOk ("text from " ++ m)

/-- Run oracle: backend `a` succeeds, every other backend fails. -/
def mixedRun : String → BackendResult :=
  fun m => if m == "a" then resOk "text from a" else resErr "boom"

/-- Health oracle: everything is healthy. -/
def allHealthy : String → Bool := fun _ => true

/-- The envelope `transcribe_parallel abRegistry onlyAHealthy alwaysRun`
produces for request `["a", "b"]`, written out. -/
def witnessEnvA : DispatchEnvelope :=
  { audioFilename := "clip.wav"
    modelsRequested := ["a", "b"]
    healthyModels := ["a"]
    successfulModels := 1
    errorMarker := none
    results := [("a", resOk "text from a")] }

/-- The matching dispatch trace. -/
def witnessTraceA : DispatchTrace :=
  { healthChecked := ["a", "b"], transcribed := ["a"] }

/-- The envelope `transcribe_parallel abRegistry allHealthy mixedRun`
produces for request `["a", "b"]`: one success, one error result. -/
def witnessEnvB : DispatchEnvelope :=
  { audioFilename := "clip.wav"
    modelsRequested := ["a", "b"]
    healthyModels := ["a", "b"]
    successfulModels := 1
    errorMarker := none
    results := [("a", resOk "text from a"), ("b", resErr "boom")] }

/-- The matching dispatch trace. -/
def witnessTraceB : DispatchTrace :=
  { healthChecked := ["a", "b"], transcribed := ["a", "b"] }

/-! ## Helper lemmas: the results dictionary of the dispatcher -/

theorem mem_keys_dictInsert {α : Type} (d : List (String × α)) (k : String)
    (v : α) (a : String) :
    a ∈ (dictInsert d k v).map Prod.fst ↔ a = k ∨ a ∈ d.map Prod.fst := by
  induction d with
  | nil => simp [dictInsert]
  | cons p rest ih =>
      obtain ⟨k0, v0⟩ := p
      by_cases hk : k0 = k
      · subst hk
        simp [dictInsert]
      · simp only [dictInsert, if_neg hk, List.map_cons, List.mem_cons, ih]
        tauto

theorem nodup_keys_dictInsert {α : Type} (d : List (String × α)) (k : String)
    (v : α) (h : (d.map Prod.fst).Nodup) :
    ((dictInsert d k v).map Prod.fst).Nodup := by
  induction d with
  | nil => simp [dictInsert]
  | cons p rest ih =>
      obtain ⟨k0, v0⟩ := p
      simp only [List.map_cons, List.nodup_cons] at h
      by_cases hk : k0 = k
      · subst hk
        simpa [dictInsert] using h
      · simp only [dictInsert, if_neg hk, List.map_cons, List.nodup_cons]
        refine ⟨?_, ih h.2⟩
        rw [mem_keys_dictInsert]
        rintro (rfl | hmem)
        · exact hk rfl
        · exact h.1 hmem

theorem mem_dictInsert {α : Type} (d : List (String × α)) (k : String) (v : α)
    (a : String) (w : α) (h : (a, w) ∈ dictInsert d k v) :
    (a = k ∧ w = v) ∨ (a, w) ∈ d := by
  induction d with
  | nil =>
      simp [dictInsert] at h
      exact Or.inl ⟨h.1, h.2⟩
  | cons p rest ih =>
      obtain ⟨k0, v0⟩ := p
      simp only [dictInsert] at h
      by_cases hk : k0 = k
      · rw [if_pos hk] at h
        rcases List.mem_cons.mp h with heq | hmem
        · exact Or.inl (Prod.ext_iff.mp heq)
        · exact Or.inr (List.mem_cons_of_mem _ hmem)
      · rw [if_neg hk] at h
        rcases List.mem_cons.mp h with heq | hmem
        · exact Or.inr (List.mem_cons.mpr (Or.inl heq))
        · rcases ih hmem with h' | h'
          · exact Or.inl h'
          · exact Or.inr (List.mem_cons_of_mem _ h')

theorem buildResults_keys (run : String → BackendResult) (ms : List String)
    (d : List (String × BackendResult)) (a : String) :
    a ∈ (buildResults run ms d).map Prod.fst ↔ a ∈ ms ∨ a ∈ d.map Prod.fst := by
  induction ms generalizing d with
  | nil => simp [buildResults]
  | cons m rest ih =>
      simp only [buildResults, ih, mem_keys_dictInsert, List.mem_cons]
      tauto

theorem buildResults_nodup (run : String → BackendResult) (ms : List String)
    (d : List (String × BackendResult)) (h : (d.map Prod.fst).Nodup) :
    ((buildResults run ms d).map Prod.fst).Nodup := by
  induction ms generalizing d with
  | nil => exact h
  | cons m rest ih => exact ih _ (nodup_keys_dictInsert d m (run m) h)

theorem buildResults_val (run : String → BackendResult) (ms : List String)
    (d : List (String × BackendResult)) (h : ∀ p ∈ d, p.2 = run p.1) :
    ∀ p ∈ buildResults run ms d, p.2 = run p.1 := by
  induction ms generalizing d with
  | nil => exact h
  | cons m rest ih =>
      refine ih _ ?_
      rintro ⟨a, w⟩ hp
      rcases mem_dictInsert d m (run m) a w hp with ⟨rfl, rfl⟩ | hp'
      · rfl
      · exact h _ hp'

theorem assoc_nodup_val_eq {α : Type} (l : List (String × α))
    (h : (l.map Prod.fst).Nodup) (a : String) (w1 w2 : α)
    (h1 : (a, w1) ∈ l) (h2 : (a, w2) ∈ l) : w1 = w2 := by
  induction l with
  | nil => cases h1
  | cons p rest ih =>
      simp only [List.map_cons, List.nodup_cons] at h
      rcases List.mem_cons.mp h1 with rfl | h1'
      · rcases List.mem_cons.mp h2 with h2' | h2'
        · exact (congrArg Prod.snd h2'.symm)
        · exact absurd (List.mem_map_of_mem Prod.fst h2') h.1
      · rcases List.mem_cons.mp h2 with rfl | h2'
        · exact absurd (List.mem_map_of_mem Prod.fst h1') h.1
        · exact ih h.2 h1' h2'

/-- The envelope invariants of a completed dispatch (shared helper). -/
theorem dispatch_invariants_aux (registry : List String)
    (health : String → Bool) (run : String → BackendResult) (filename : String)
    (models? : Option (List String)) (env : DispatchEnvelope)
    (tr : DispatchTrace)
    (h : transcribe_parallel registry health run filename models? =
      (Except.ok env, tr)) :
    (env.results.map Prod.fst).Nodup ∧
    (∀ m, m ∈ env.results.map Prod.fst ↔ m ∈ env.healthyModels) ∧
    (∀ m ∈ env.healthyModels, m ∈ env.modelsRequested) ∧
    (∀ m ∈ env.modelsRequested, m ∈ registry) ∧
    (∀ p ∈ env.results, p.2 = run p.1) := by
  unfold transcribe_parallel at h
  set models := models?.getD registry with hmodels
  by_cases hinv : (models.filter (fun m => !registry.contains m)).isEmpty
  · rw [if_pos hinv] at h
    have hreg : ∀ m ∈ models, m ∈ registry := by
      intro m hm
      by_contra hcon
      have hmem : m ∈ models.filter (fun m => !registry.contains m) :=
        List.mem_filter.mpr ⟨hm, by simp [hcon]⟩
      rw [List.isEmpty_iff.mp hinv] at hmem
      cases hmem
    by_cases hh : (models.filter (fun m => health m)).isEmpty
    · rw [if_pos hh] at h
      obtain ⟨henv, -⟩ := Prod.mk.injEq .. ▸ h
      cases Except.ok.inj henv
      refine ⟨by simp, by simp, by simp, ?_, by simp⟩
      intro m hm
      exact hreg m hm
    · rw [if_neg hh] at h
      obtain ⟨henv, -⟩ := Prod.mk.injEq .. ▸ h
      cases Except.ok.inj henv
      refine ⟨?_, ?_, ?_, ?_, ?_⟩
      · exact buildResults_nodup run _ [] (by simp)
      · intro m
        rw [buildResults_keys]
        simp
      · intro m hm
        exact (List.mem_filter.mp hm).1
      · intro m hm
        exact hreg m hm
      · exact buildResults_val run _ [] (by simp)
  · rw [if_neg hinv] at h
    obtain ⟨henv, -⟩ := Prod.mk.injEq .. ▸ h
    cases henv

/-! ## Claim C3 -/

/-- Claim C3: for every dispatch request that returns an envelope, the results
map has exactly one entry per healthy backend (its key set equals the
healthy set and is duplicate-free), the healthy set is contained in the
requested backends, and the requested backends are contained in the
registry keys. -/
theorem dispatch_results_match_healthy (registry : List String)
    (health : String → Bool) (run : String → BackendResult) (filename : String)
    (models? : Option (List String)) (env : DispatchEnvelope)
    (tr : DispatchTrace)
    (h : transcribe_parallel registry health run filename models? =
      (Except.ok env, tr)) :
    (env.results.map Prod.fst).Nodup ∧
    (∀ m, m ∈ env.results.map Prod.fst ↔ m ∈ env.healthyModels) ∧
    (∀ m ∈ env.healthyModels, m ∈ env.modelsRequested) ∧
    (∀ m ∈ env.modelsRequested, m ∈ registry) := by
  obtain ⟨a, b, c, d, -⟩ :=
    dispatch_invariants_aux registry health run filename models? env tr h
  exact ⟨a, b, c, d⟩

/-- Witness for C3 at a concrete dispatch. -/
theorem dispatch_results_match_healthy_witness :
    (witnessEnvA.results.map Prod.fst).Nodup ∧
    ("a" ∈ witnessEnvA.results.map Prod.fst ↔ "a" ∈ witnessEnvA.healthyModels) ∧
    ("b" ∈ witnessEnvA.results.map Prod.fst ↔ "b" ∈ witnessEnvA.healthyModels) := by
  obtain ⟨h1, h2, -, -⟩ :=
    dispatch_results_match_healthy abRegistry onlyAHealthy alwaysRun
      "clip.wav" (some ["a", "b"]) witnessEnvA witnessTraceA rfl
  exact ⟨h1, h2 "a", h2 "b"⟩

/-! ## Claim C4 -/

/-- Claim C4: when every requested backend is valid but unhealthy, dispatch
returns (never raises) the empty envelope with zero successes and the
explicit no-healthy-backends marker, and the trace shows that no
transcription call was issued. -/
theorem dispatch_all_unhealthy_returns_empty (registry : List String)
    (health : String → Bool) (run : String → BackendResult) (filename : String)
    (models? : Option (List String))
    (hvalid : ((models?.getD registry).filter
        (fun m => !registry.contains m)).isEmpty = true)
    (hunhealthy : ∀ m ∈ models?.getD registry, health m = false) :
    transcribe_parallel registry health run filename models? =
      (Except.ok
        { audioFilename := filename
          modelsRequested := models?.getD registry
          healthyModels := []
          successfulModels := 0
          errorMarker := some noHealthyMsg
          results := [] },
       { healthChecked := models?.getD registry, transcribed := [] }) := by
  have hfil : (models?.getD registry).filter (fun m => health m) = [] :=
    List.filter_eq_nil_iff.mpr (fun m hm => by simp [hunhealthy m hm])
  simp only [transcribe_parallel, hfil]
  rw [if_pos hvalid]
  simp

/-- Witness for C4: both backends valid, neither healthy. -/
theorem dispatch_all_unhealthy_returns_empty_witness :
    transcribe_parallel abRegistry noneHealthy alwaysRun "clip.wav"
        (some ["a", "b"]) =
      (Except.ok
        { audioFilename := "clip.wav"
          modelsRequested := ["a", "b"]
          healthyModels := []
          successfulModels := 0
          errorMarker := some noHealthyMsg
          results := [] },
       { healthChecked := ["a", "b"], transcribed := [] }) :=
  dispatch_all_unhealthy_returns_empty abRegistry noneHealthy alwaysRun
    "clip.wav" (some ["a", "b"]) (by decide) (by decide)

/-! ## Claim C10 -/

/-- Claim C10: a request naming an unknown backend makes `transcribe_parallel`
raise the `ValueError` naming the invalid models, with no health check
and no transcription call issued. -/
theorem dispatch_invalid_models_raise (registry : List String)
    (health : String → Bool) (run : String → BackendResult) (filename : String)
    (models : List String) (m : String) (hm : m ∈ models)
    (hnotreg : registry.contains m = false) :
    transcribe_parallel registry health run filename (some models) =
      (Except.error
        (invalidModelsMsg (models.filter (fun x => !registry.contains x))),
       { healthChecked := [], transcribed := [] }) := by
  have hmem : m ∈ models.filter (fun x => !registry.contains x) :=
    List.mem_filter.mpr ⟨hm, by simpa using hnotreg⟩
  have hne : (models.filter (fun x => !registry.contains x)).isEmpty = false := by
    cases hfe : (models.filter (fun x => !registry.contains x)).isEmpty
    · rfl
    · rw [List.isEmpty_iff.mp hfe] at hmem
      cases hmem
  have hcond : ¬ ((models.filter (fun x => !registry.contains x)).isEmpty = true) := by
    rw [hne]
    exact Bool.false_ne_true
  simp only [transcribe_parallel, Option.getD]
  rw [if_neg hcond]

/-- Witness for C10: requesting the unknown backend `zzz`. -/
theorem dispatch_invalid_models_raise_witness :
    transcribe_parallel abRegistry onlyAHealthy alwaysRun "clip.wav"
        (some ["a", "zzz"]) =
      (Except.error
        (invalidModelsMsg (["a", "zzz"].filter (fun x => !abRegistry.contains x))),
       { healthChecked := [], transcribed := [] }) :=
  dispatch_invalid_models_raise abRegistry onlyAHealthy alwaysRun "clip.wav"
    ["a", "zzz"] "zzz" (by decide) (by decide)

/-! ## Claim C9 -/

/-- Membership in the `/transcribe` response (shared helper). -/
theorem mem_transcribe_audio_response (results : List (String × BackendResult))
    (m : String) (t : String) :
    (m, t) ∈ transcribe_audio_response results ↔
      ∃ r, (m, r) ∈ results ∧ r.status = "success" ∧
        t = r.transcription.getD "" := by
  unfold transcribe_audio_response
  rw [List.mem_filterMap]
  constructor
  · rintro ⟨⟨m0, r⟩, hmem, hf⟩
    split at hf
    next hs =>
      obtain ⟨hm, ht⟩ := Prod.ext_iff.mp (Option.some.inj hf)
      subst hm
      exact ⟨r, hmem, by simpa using hs, ht.symm⟩
    next => cases hf
  · rintro ⟨r, hmem, hs, rfl⟩
    exact ⟨(m, r), hmem, by simp [hs]⟩

/-- Claim C9: the `/transcribe` endpoint response maps exactly the backends
whose dispatch result has success status to their transcription strings;
backends whose call failed, and backends excluded as unhealthy, are
silently absent from the response. -/
theorem transcribe_endpoint_maps_successes (registry : List String)
    (health : String → Bool) (run : String → BackendResult) (filename : String)
    (models? : Option (List String)) (env : DispatchEnvelope)
    (tr : DispatchTrace)
    (h : transcribe_parallel registry health run filename models? =
      (Except.ok env, tr)) :
    (∀ m t, (m, t) ∈ transcribe_audio_response env.results ↔
      ∃ r, (m, r) ∈ env.results ∧ r.status = "success" ∧
        t = r.transcription.getD "") ∧
    (∀ m r, (m, r) ∈ env.results → r.status ≠ "success" →
      m ∉ (transcribe_audio_response env.results).map Prod.fst) ∧
    (∀ m, m ∉ env.healthyModels →
      m ∉ (transcribe_audio_response env.results).map Prod.fst) := by
  obtain ⟨hnodup, hkeys, -, -, -⟩ :=
    dispatch_invariants_aux registry health run filename models? env tr h
  refine ⟨fun m t => mem_transcribe_audio_response env.results m t, ?_, ?_⟩
  · intro m r hmem hst hcon
    obtain ⟨⟨m0, t⟩, hmt, hfst⟩ := List.mem_map.mp hcon
    cases hfst
    obtain ⟨r2, hmem2, hs2, -⟩ :=
      (mem_transcribe_audio_response env.results m0 t).mp hmt
    exact hst (assoc_nodup_val_eq env.results hnodup m0 r r2 hmem hmem2 ▸ hs2)
  · intro m hnh hcon
    obtain ⟨⟨m0, t⟩, hmt, hfst⟩ := List.mem_map.mp hcon
    cases hfst
    obtain ⟨r2, hmem2, -, -⟩ :=
      (mem_transcribe_audio_response env.results m0 t).mp hmt
    exact hnh ((hkeys m0).mp (List.mem_map_of_mem Prod.fst hmem2))

/-- Witness for C9: backend `b` failed and is absent from the response;
the unknown-to-dispatch backend `c` is likewise absent. -/
theorem transcribe_endpoint_maps_successes_witness :
    ("b" ∉ (transcribe_audio_response witnessEnvB.results).map Prod.fst) ∧
    ("c" ∉ (transcribe_audio_response witnessEnvB.results).map Prod.fst) := by
  obtain ⟨-, h2, h3⟩ :=
    transcribe_endpoint_maps_successes abRegistry allHealthy mixedRun
      "clip.wav" (some ["a", "b"]) witnessEnvB witnessTraceB rfl
  exact ⟨h2 "b" (resErr "boom") (by simp [witnessEnvB]) (by decide),
    h3 "c" (by decide)⟩

/-! ## Helper lemmas: dictionary access and joins -/

theorem pyGetItem_ok (o : List (String × JVal)) (k : String) (v : JVal)
    (h : List.lookup k o = some v) : pyGetItem o k = Except.ok v := by
  unfold pyGetItem
  rw [h]

theorem pyGetD_eq (o : List (String × JVal)) (k : String) (v d : JVal)
    (h : List.lookup k o = some v) : pyGetD o k d = v := by
  unfold pyGetD
  rw [h]
  rfl

theorem containsKey_exists (o : List (String × JVal)) (k : String)
    (h : containsKey o k = true) : ∃ v, List.lookup k o = some v := by
  unfold containsKey at h
  exact Option.isSome_iff_exists.mp h

theorem lookup_of_truthy_getD (o : List (String × JVal)) (k : String)
    (h : pyTruthy (pyGetD o k JVal.jnull) = true) :
    List.lookup k o = some (pyGetD o k JVal.jnull) := by
  unfold pyGetD at *
  cases hl : List.lookup k o with
  | none =>
      rw [hl] at h
      exact absurd h (by decide)
  | some v => rfl

theorem pyStrElems_of_strList (xs : List JVal) (h : strListB (JVal.jarr xs) = true) :
    ∃ ss, pyStrElems xs = Except.ok ss := by
  induction xs with
  | nil => exact ⟨[], rfl⟩
  | cons x rest ih =>
      simp only [strListB, List.all_cons, Bool.and_eq_true] at h
      obtain ⟨hx, hrest⟩ := h
      cases x with
      | jstr s =>
          obtain ⟨ss, hss⟩ := ih (by simpa [strListB] using hrest)
          exact ⟨s :: ss, by simp [pyStrElems, hss]⟩
      | jnull => exact Bool.noConfusion hx
      | jbool b => exact Bool.noConfusion hx
      | jnum q => exact Bool.noConfusion hx
      | jarr ys => exact Bool.noConfusion hx
      | jobj kvs => exact Bool.noConfusion hx

/-! ## Counterexamples: concrete pipeline runs -/

/-- Claim C1 counterexample: with two successful backends and a failed
consensus generation call, the stage returns the explicit error outcome;
no fallback consensus (no success output at all) is produced, contrary to
the claimed lexicographic-fallback behaviour. -/
theorem consensus_failure_yields_error_outcome :
    execute_consensus_pipeline failingConsensusOracle downTavily abEnv =
      Except.ok (PipelineOutput.consensusFailure
        (GeminiReply.failed "generation service unavailable"),
        { webSearches := [], validationCalled := false }) ∧
    pipelineSucceeds
      (execute_consensus_pipeline failingConsensusOracle downTavily abEnv) =
      false :=
  ⟨rfl, rfl⟩

/-- Claim C2 counterexample: a reply that does return a function call but lacks
the required `consensus_transcription` field makes the pipeline raise a
KeyError past the stage boundary instead of falling back. -/
theorem missing_required_field_raises :
    execute_consensus_pipeline missingFieldOracle downTavily abEnv =
      Except.error "KeyError: consensus_transcription" ∧
    raisesException
      (execute_consensus_pipeline missingFieldOracle downTavily abEnv) =
      true :=
  ⟨rfl, rfl⟩

/-- Claim C5 counterexample: every web search fails, yet the validation
generation call succeeds and its `final_consensus` ("hello there")
replaces the consensus transcript ("hello world") — the validated
transcript is not byte-for-byte equal to the consensus transcript. -/
theorem web_validation_overrides_despite_failed_searches :
    webQueriesOf (execute_consensus_pipeline overrideOracle downTavily abEnv) =
      some [JVal.jstr "hello world origin"] ∧
    webOutcomesOf (execute_consensus_pipeline overrideOracle downTavily abEnv) =
      some [TavilyReply.errored "connection refused"] ∧
    consensusTranscriptOf
      (execute_consensus_pipeline overrideOracle downTavily abEnv) =
      some "hello world" ∧
    validatedTranscriptOf
      (execute_consensus_pipeline overrideOracle downTavily abEnv) =
      some "hello there" ∧
    (some "hello there" : Option String) ≠ some "hello world" :=
  ⟨rfl, rfl, rfl, rfl, by decide⟩

/-- Claim C6 counterexample: the search stage passes four queries downstream
and four web-search calls are performed — more than the claimed cap of
three. -/
theorem search_queries_exceed_cap :
    webQueriesOf (execute_consensus_pipeline fourQueryOracle okTavily abEnv) =
      some [JVal.jstr "q one", JVal.jstr "q two",
            JVal.jstr "q three", JVal.jstr "q four"] ∧
    (webQueriesOf
      (execute_consensus_pipeline fourQueryOracle okTavily abEnv)).map
        List.length = some 4 ∧
    ¬ (4 ≤ 3) :=
  ⟨rfl, rfl, by decide⟩

/-- Claim C8 counterexample: with an empty phoneme-timing input the
particle-detection stage still forwards the one particle reported by a
successful generation call, instead of returning the claimed empty
list. -/
theorem empty_timing_particles_not_forced_empty :
    (particlesOf (detect_discourse_particles_with_ipa noPhonemize
        hallucinatingDetectionReply "ok can" "" [] none
        (some "singaporean"))).map List.length = some 1 ∧
    (some 1 : Option Nat) ≠ some 0 :=
  ⟨rfl, by decide⟩

/-! ## Helper lemmas: monadic plumbing and stage steps -/

theorem exceptBind_ok {α β : Type} (v : α) (k : α → Except String β) :
    (Except.ok v >>= k : Except String β) = k v := rfl

theorem exceptBind_error {α β : Type} (m : String) (k : α → Except String β) :
    ((Except.error m : Except String α) >>= k) = Except.error m := rfl

theorem exceptPure {α : Type} (v : α) : (pure v : Except String α) = Except.ok v := rfl

theorem lookup_of_getD_jarr (o : List (String × JVal)) (k : String)
    (xs : List JVal) (h : pyGetD o k JVal.jnull = JVal.jarr xs) :
    List.lookup k o = some (JVal.jarr xs) := by
  unfold pyGetD at h
  cases hl : List.lookup k o with
  | none =>
      rw [hl] at h
      exact absurd h (by simp)
  | some v =>
      rw [hl] at h
      exact congrArg some h

theorem lookup_fallback_fc (a b : JVal) :
    List.lookup "final_consensus"
      [("validated_terms", JVal.jobj []), ("corrections_made", JVal.jarr []),
       ("final_consensus", a), ("validation_confidence", b)] = some a := rfl

theorem lookup_fallback_vc (a b : JVal) :
    List.lookup "validation_confidence"
      [("validated_terms", JVal.jobj []), ("corrections_made", JVal.jarr []),
       ("final_consensus", a), ("validation_confidence", b)] = some b := rfl

theorem formatSearchExplanations_fallback_vd (sd : List (String × JVal))
    (a b : JVal)
    (hq : pyTruthy (pyGetD sd "search_queries" JVal.jnull) = false) :
    formatSearchExplanations sd
      [("validated_terms", JVal.jobj []), ("corrections_made", JVal.jarr []),
       ("final_consensus", a), ("validation_confidence", b)] =
      Except.ok "No proper nouns requiring web verification found" := by
  unfold formatSearchExplanations
  simp only [hq]
  rfl

theorem formatSearchExplanations_queries_vd (sd : List (String × JVal))
    (qs : List JVal) (ss : List String) (a b : JVal)
    (hq : pyGetD sd "search_queries" JVal.jnull = JVal.jarr qs)
    (hne : qs.isEmpty = false)
    (hjoin : pyStrElems qs = Except.ok ss) :
    formatSearchExplanations sd
      [("validated_terms", JVal.jobj []), ("corrections_made", JVal.jarr []),
       ("final_consensus", a), ("validation_confidence", b)] =
      Except.ok ("Verified Search Terms: " ++ String.intercalate ", " ss) := by
  unfold formatSearchExplanations pyJoinComma
  simp only [hq, pyTruthy, hne, pyIter, hjoin, exceptBind_ok, exceptPure,
    Bool.not_false]
  rfl

theorem webValidationStep_no_queries (tavily : JVal → TavilyReply)
    (vr : GeminiReply) (cd sd : List (String × JVal)) (vct vms : JVal)
    (hq : pyTruthy (pyGetD sd "search_queries" JVal.jnull) = false)
    (h1 : List.lookup "consensus_transcription" cd = some vct)
    (h2 : List.lookup "model_agreement_score" cd = some vms) :
    webValidationStep tavily vr cd sd =
      Except.ok ([],
        ([("validated_terms", JVal.jobj []), ("corrections_made", JVal.jarr []),
          ("final_consensus", vct), ("validation_confidence", vms)], false)) := by
  unfold webValidationStep validationFallback
  simp only [hq, pyGetItem_ok _ _ _ h1, pyGetItem_ok _ _ _ h2,
    exceptBind_ok, exceptPure]
  rfl

theorem webValidationStep_queries_valfail (tavily : JVal → TavilyReply)
    (vr : GeminiReply) (cd sd : List (String × JVal)) (qs : List JVal)
    (vct vms vpm vsr : JVal)
    (hq : pyGetD sd "search_queries" JVal.jnull = JVal.jarr qs)
    (hne : qs.isEmpty = false)
    (h1 : List.lookup "consensus_transcription" cd = some vct)
    (h2 : List.lookup "model_agreement_score" cd = some vms)
    (h3 : List.lookup "primary_model" cd = some vpm)
    (hr : List.lookup "search_reasoning" sd = some vsr)
    (hv : isFnCall vr = false) :
    webValidationStep tavily vr cd sd =
      Except.ok (qs.map (fun q => (q, tavily q)),
        ([("validated_terms", JVal.jobj []), ("corrections_made", JVal.jarr []),
          ("final_consensus", vct), ("validation_confidence", vms)], true)) := by
  unfold webValidationStep validationFallback
  simp only [hq, pyTruthy, hne, Bool.not_false, pyIter,
    pyGetItem_ok _ _ _ h1, pyGetItem_ok _ _ _ h2, pyGetItem_ok _ _ _ h3,
    pyGetItem_ok _ _ _ (lookup_of_getD_jarr sd "search_queries" qs hq),
    pyGetItem_ok _ _ _ hr, exceptBind_ok, exceptPure]
  cases vr with
  | fnCall n a => exact absurd hv (by simp [isFnCall])
  | failed m => rfl
  | text s => rfl

theorem webValidationStep_queries_valok (tavily : JVal → TavilyReply)
    (nv : String) (vargs : List (String × JVal)) (cd sd : List (String × JVal))
    (qs : List JVal) (vct vms vpm vsr : JVal)
    (hq : pyGetD sd "search_queries" JVal.jnull = JVal.jarr qs)
    (hne : qs.isEmpty = false)
    (h1 : List.lookup "consensus_transcription" cd = some vct)
    (h2 : List.lookup "model_agreement_score" cd = some vms)
    (h3 : List.lookup "primary_model" cd = some vpm)
    (hr : List.lookup "search_reasoning" sd = some vsr) :
    webValidationStep tavily (GeminiReply.fnCall nv vargs) cd sd =
      Except.ok (qs.map (fun q => (q, tavily q)), (vargs, true)) := by
  unfold webValidationStep
  simp only [hq, pyTruthy, hne, Bool.not_false, pyIter,
    pyGetItem_ok _ _ _ h1, pyGetItem_ok _ _ _ h2, pyGetItem_ok _ _ _ h3,
    pyGetItem_ok _ _ _ (lookup_of_getD_jarr sd "search_queries" qs hq),
    pyGetItem_ok _ _ _ hr, exceptBind_ok, exceptPure]
  simp

/-- Master lemma: a failed consensus generation call short-circuits the
pipeline into the explicit error outcome with no external calls. -/
theorem pipeline_master_consensus_fail (g : GeminiOracle)
    (tavily : JVal → TavilyReply) (env : DispatchEnvelope)
    (hv : isFnCall g.consensusReply = false) :
    execute_consensus_pipeline g tavily env =
      Except.ok (PipelineOutput.consensusFailure g.consensusReply,
        { webSearches := [], validationCalled := false }) := by
  obtain ⟨cr, sr, vr⟩ := g
  cases cr with
  | fnCall n a => exact absurd hv (by simp [isFnCall])
  | failed m => rfl
  | text s => rfl

/-- Master lemma: consensus succeeded and the effective search data has
no truthy query list — no web search, no validation call, validated data
is the pass-through fallback. -/
theorem pipeline_master_no_queries (g : GeminiOracle)
    (tavily : JVal → TavilyReply) (env : DispatchEnvelope) (nm : String)
    (cargs : List (String × JVal)) (vct vms vpm : JVal) (fs : String)
    (hc : g.consensusReply = GeminiReply.fnCall nm cargs)
    (h1 : List.lookup "consensus_transcription" cargs = some vct)
    (h2 : List.lookup "model_agreement_score" cargs = some vms)
    (h3 : List.lookup "primary_model" cargs = some vpm)
    (hq : pyTruthy (pyGetD (searchStageData g.searchReply) "search_queries"
        JVal.jnull) = false)
    (hfmt : formatSearchExplanations (searchStageData g.searchReply)
        [("validated_terms", JVal.jobj []), ("corrections_made", JVal.jarr []),
         ("final_consensus", vct), ("validation_confidence", vms)] =
        Except.ok fs) :
    execute_consensus_pipeline g tavily env =
      Except.ok (PipelineOutput.success
        { primary := vct
          optionA :=
            { transcription := vct
              label := "AI Consensus"
              description := "Based on agreement between " ++
                toString env.successfulModels ++ " speech recognition models"
              confidence := vms
              reasoning := "Primary model: " ++ pyStr vpm }
          optionB :=
            { transcription := vct
              label := "With Spelling Context"
              description := "AI consensus with proper noun spelling verification"
              confidence := vms
              reasoning := fs }
          alternatives := alternativesOf env
          consensusData := cargs
          validationData :=
            [("validated_terms", JVal.jobj []), ("corrections_made", JVal.jarr []),
             ("final_consensus", vct), ("validation_confidence", vms)]
          searchData := searchStageData g.searchReply
          confidence := vms
          modelsUsed := env.successfulModels
          audioFilename := env.audioFilename },
        { webSearches := [], validationCalled := false }) := by
  unfold execute_consensus_pipeline pronounConsolidationStep
  rw [hc]
  simp only [pyGetItem_ok _ _ _ h1, pyGetItem_ok _ _ _ h2,
    pyGetItem_ok _ _ _ h3,
    webValidationStep_no_queries tavily g.validationReply cargs
      (searchStageData g.searchReply) vct vms hq h1 h2,
    pyGetItem_ok _ _ _ (lookup_fallback_fc vct vms),
    pyGetItem_ok _ _ _ (lookup_fallback_vc vct vms),
    hfmt, exceptBind_ok, exceptPure]

/-- Master lemma: consensus succeeded, the search stage produced a
non-empty query list, and the validation generation call failed — the
searches run, the validation call is made, and the validated data is the
pass-through fallback. -/
theorem pipeline_master_queries_valfail (g : GeminiOracle)
    (tavily : JVal → TavilyReply) (env : DispatchEnvelope) (nm ns : String)
    (cargs sargs : List (String × JVal)) (qs : List JVal)
    (vct vms vpm vsr : JVal) (fs : String)
    (hc : g.consensusReply = GeminiReply.fnCall nm cargs)
    (hs : g.searchReply = GeminiReply.fnCall ns sargs)
    (h1 : List.lookup "consensus_transcription" cargs = some vct)
    (h2 : List.lookup "model_agreement_score" cargs = some vms)
    (h3 : List.lookup "primary_model" cargs = some vpm)
    (hq : pyGetD sargs "search_queries" JVal.jnull = JVal.jarr qs)
    (hne : qs.isEmpty = false)
    (hr : List.lookup "search_reasoning" sargs = some vsr)
    (hv : isFnCall g.validationReply = false)
    (hfmt : formatSearchExplanations sargs
        [("validated_terms", JVal.jobj []), ("corrections_made", JVal.jarr []),
         ("final_consensus", vct), ("validation_confidence", vms)] =
        Except.ok fs) :
    execute_consensus_pipeline g tavily env =
      Except.ok (PipelineOutput.success
        { primary := vct
          optionA :=
            { transcription := vct
              label := "AI Consensus"
              description := "Based on agreement between " ++
                toString env.successfulModels ++ " speech recognition models"
              confidence := vms
              reasoning := "Primary model: " ++ pyStr vpm }
          optionB :=
            { transcription := vct
              label := "With Spelling Context"
              description := "AI consensus with proper noun spelling verification"
              confidence := vms
              reasoning := fs }
          alternatives := alternativesOf env
          consensusData := cargs
          validationData :=
            [("validated_terms", JVal.jobj []), ("corrections_made", JVal.jarr []),
             ("final_consensus", vct), ("validation_confidence", vms)]
          searchData := sargs
          confidence := vms
          modelsUsed := env.successfulModels
          audioFilename := env.audioFilename },
        { webSearches := qs.map (fun q => (q, tavily q)),
          validationCalled := true }) := by
  unfold execute_consensus_pipeline pronounConsolidationStep
  rw [hc]
  simp only [hs, searchStageData,
    pyGetItem_ok _ _ _ h1, pyGetItem_ok _ _ _ h2, pyGetItem_ok _ _ _ h3,
    webValidationStep_queries_valfail tavily g.validationReply cargs sargs qs
      vct vms vpm vsr hq hne h1 h2 h3 hr hv,
    pyGetItem_ok _ _ _ (lookup_fallback_fc vct vms),
    pyGetItem_ok _ _ _ (lookup_fallback_vc vct vms),
    hfmt, exceptBind_ok, exceptPure]

/-- Master lemma: consensus succeeded, the search stage produced a
non-empty query list, and the validation generation call returned a
function call — its arguments are merged verbatim as the validated
data. -/
theorem pipeline_master_queries_valok (g : GeminiOracle)
    (tavily : JVal → TavilyReply) (env : DispatchEnvelope) (nm ns nv : String)
    (cargs sargs vargs : List (String × JVal)) (qs : List JVal)
    (vct vms vpm vsr vfc vvc : JVal) (fs : String)
    (hc : g.consensusReply = GeminiReply.fnCall nm cargs)
    (hs : g.searchReply = GeminiReply.fnCall ns sargs)
    (hvr : g.validationReply = GeminiReply.fnCall nv vargs)
    (h1 : List.lookup "consensus_transcription" cargs = some vct)
    (h2 : List.lookup "model_agreement_score" cargs = some vms)
    (h3 : List.lookup "primary_model" cargs = some vpm)
    (hq : pyGetD sargs "search_queries" JVal.jnull = JVal.jarr qs)
    (hne : qs.isEmpty = false)
    (hr : List.lookup "search_reasoning" sargs = some vsr)
    (hfc : List.lookup "final_consensus" vargs = some vfc)
    (hvc : List.lookup "validation_confidence" vargs = some vvc)
    (hfmt : formatSearchExplanations sargs vargs = Except.ok fs) :
    execute_consensus_pipeline g tavily env =
      Except.ok (PipelineOutput.success
        { primary := vct
          optionA :=
            { transcription := vct
              label := "AI Consensus"
              description := "Based on agreement between " ++
                toString env.successfulModels ++ " speech recognition models"
              confidence := vms
              reasoning := "Primary model: " ++ pyStr vpm }
          optionB :=
            { transcription := vfc
              label := "With Spelling Context"
              description := "AI consensus with proper noun spelling verification"
              confidence := vvc
              reasoning := fs }
          alternatives := alternativesOf env
          consensusData := cargs
          validationData := vargs
          searchData := sargs
          confidence := vms
          modelsUsed := env.successfulModels
          audioFilename := env.audioFilename },
        { webSearches := qs.map (fun q => (q, tavily q)),
          validationCalled := true }) := by
  unfold execute_consensus_pipeline pronounConsolidationStep
  rw [hc]
  simp only [hs, hvr, searchStageData,
    pyGetItem_ok _ _ _ h1, pyGetItem_ok _ _ _ h2, pyGetItem_ok _ _ _ h3,
    webValidationStep_queries_valok tavily nv vargs cargs sargs qs
      vct vms vpm vsr hq hne h1 h2 h3 hr,
    pyGetItem_ok _ _ _ hfc, pyGetItem_ok _ _ _ hvc,
    hfmt, exceptBind_ok, exceptPure]

theorem orb_true_elim (a b : Bool) (h : (a || b) = true) :
    a = true ∨ b = true := by
  cases a
  · exact Or.inr (by simpa using h)
  · exact Or.inl rfl

theorem exists_ok_of_not_raises {α : Type} (e : Except String α)
    (h : raisesException e = false) : ∃ v, e = Except.ok v := by
  cases e with
  | error m => exact absurd h (by simp [raisesException])
  | ok v => exact ⟨v, rfl⟩

theorem strListB_jarr (v : JVal) (h : strListB v = true) :
    ∃ xs, v = JVal.jarr xs := by
  cases v with
  | jarr xs => exact ⟨xs, rfl⟩
  | jnull => exact Bool.noConfusion h
  | jbool b => exact Bool.noConfusion h
  | jnum q => exact Bool.noConfusion h
  | jstr s => exact Bool.noConfusion h
  | jobj kvs => exact Bool.noConfusion h

theorem strListB_of_joinable (v : JVal) (hj : joinableOK v = true)
    (ht : pyTruthy v = true) : strListB v = true := by
  unfold joinableOK at hj
  rcases orb_true_elim _ _ hj with h | h
  · rw [ht] at h
    exact Bool.noConfusion h
  · exact h

theorem jobj_of_validatedTermsOK (v : JVal) (hv : validatedTermsOK v = true)
    (ht : pyTruthy v = true) : ∃ kvs, v = JVal.jobj kvs := by
  unfold validatedTermsOK at hv
  rcases orb_true_elim _ _ hv with h | h
  · rw [ht] at h
    exact Bool.noConfusion h
  · cases v with
    | jobj kvs => exact ⟨kvs, rfl⟩
    | jnull => exact Bool.noConfusion h
    | jbool b => exact Bool.noConfusion h
    | jnum q => exact Bool.noConfusion h
    | jstr s => exact Bool.noConfusion h
    | jarr xs => exact Bool.noConfusion h

/-- The search-fallback dictionary has a falsy (empty) query list. -/
theorem searchFallback_queries_falsy :
    pyTruthy (pyGetD searchFallback "search_queries" JVal.jnull) = false := rfl

/-- `_format_search_explanations` succeeds whenever the values it touches
have the schema-declared shapes. -/
theorem formatSearchExplanations_ok_of_conditions (sd vd : List (String × JVal))
    (qs : List JVal) (ss : List String)
    (hq : pyGetD sd "search_queries" JVal.jnull = JVal.jarr qs)
    (hne : qs.isEmpty = false)
    (hjoin : pyStrElems qs = Except.ok ss)
    (hvt : validatedTermsOK (pyGetD vd "validated_terms" JVal.jnull) = true)
    (hcm : joinableOK (pyGetD vd "corrections_made" JVal.jnull) = true) :
    ∃ s, formatSearchExplanations sd vd = Except.ok s := by
  apply exists_ok_of_not_raises
  have hb1 : pyTruthy (JVal.jarr qs) = true := by simp [pyTruthy, hne]
  unfold formatSearchExplanations pyJoinComma
  simp only [hq, hb1, pyIter, hjoin, exceptBind_ok, exceptPure]
  cases h2 : pyTruthy (pyGetD vd "validated_terms" JVal.jnull) with
  | false =>
      cases h3 : pyTruthy (pyGetD vd "corrections_made" JVal.jnull) with
      | false => rfl
      | true =>
          obtain ⟨xs3, hxs3⟩ := strListB_jarr _ (strListB_of_joinable _ hcm h3)
          obtain ⟨ss3, hss3⟩ :=
            pyStrElems_of_strList xs3 (hxs3 ▸ strListB_of_joinable _ hcm h3)
          have hb3 : pyTruthy (JVal.jarr xs3) = true := hxs3 ▸ h3
          simp only [hxs3, hb3, pyIter, hss3, exceptBind_ok, exceptPure]
          rfl
  | true =>
      obtain ⟨kvs, hkvs⟩ := jobj_of_validatedTermsOK _ hvt h2
      have hb2 : pyTruthy (JVal.jobj kvs) = true := hkvs ▸ h2
      simp only [hkvs, hb2, pyDictKeys, exceptBind_ok, exceptPure]
      cases h3 : pyTruthy (pyGetD vd "corrections_made" JVal.jnull) with
      | false => rfl
      | true =>
          obtain ⟨xs3, hxs3⟩ := strListB_jarr _ (strListB_of_joinable _ hcm h3)
          obtain ⟨ss3, hss3⟩ :=
            pyStrElems_of_strList xs3 (hxs3 ▸ strListB_of_joinable _ hcm h3)
          have hb3 : pyTruthy (JVal.jarr xs3) = true := hxs3 ▸ h3
          simp only [hxs3, hb3, pyIter, hss3, exceptBind_ok, exceptPure]
          rfl

theorem andb_true_elim (a b : Bool) (h : (a && b) = true) :
    a = true ∧ b = true := by
  cases a
  · exact absurd h (by simp)
  · exact ⟨rfl, by simpa using h⟩

/-! ## Claim C1 -/

/-- Claim C1 (amended): when the consensus generation call fails (error status
or no function call returned), the Consensus stage produces no fallback
consensus at all — the pipeline returns the explicit error outcome
carrying the failed reply, with no web search and no validation call. -/
theorem consensus_call_failure_returns_error_outcome (g : GeminiOracle)
    (tavily : JVal → TavilyReply) (env : DispatchEnvelope)
    (hv : isFnCall g.consensusReply = false) :
    execute_consensus_pipeline g tavily env =
      Except.ok (PipelineOutput.consensusFailure g.consensusReply,
        { webSearches := [], validationCalled := false }) ∧
    pipelineSucceeds (execute_consensus_pipeline g tavily env) = false := by
  have h := pipeline_master_consensus_fail g tavily env hv
  refine ⟨h, ?_⟩
  rw [h]
  rfl

/-- Witness for C1. -/
theorem consensus_call_failure_returns_error_outcome_witness :
    execute_consensus_pipeline failingConsensusOracle downTavily witnessEnvA =
      Except.ok (PipelineOutput.consensusFailure
        failingConsensusOracle.consensusReply,
        { webSearches := [], validationCalled := false }) ∧
    pipelineSucceeds
      (execute_consensus_pipeline failingConsensusOracle downTavily
        witnessEnvA) = false :=
  consensus_call_failure_returns_error_outcome failingConsensusOracle
    downTavily witnessEnvA rfl

/-! ## Claim C2 -/

/-- Claim C2 (amended): outright call failures never raise — every stage then
merges its deterministic fallback (the consensus stage instead ends the
pipeline with its explicit error outcome).  The hypotheses only require
that the fields a function-call reply does carry have their
schema-declared shapes; which calls fail is unconstrained.  (A function
call missing a required field, by contrast, raises a KeyError — see the
counterexample.) -/
theorem pipeline_call_failures_fall_back_without_raising (g : GeminiOracle)
    (tavily : JVal → TavilyReply) (env : DispatchEnvelope)
    (hcons : isFnCall g.consensusReply = false ∨
      consensusArgsOK g.consensusReply = true)
    (hsearch : searchReplyOK g.searchReply = true)
    (hvalid : validationReplyOK g.validationReply = true) :
    raisesException (execute_consensus_pipeline g tavily env) = false := by
  rcases hcons with hcf | hca
  · rw [pipeline_master_consensus_fail g tavily env hcf]
    rfl
  · cases hc : g.consensusReply with
    | failed m => rw [hc] at hca; exact Bool.noConfusion hca
    | text s => rw [hc] at hca; exact Bool.noConfusion hca
    | fnCall nm cargs =>
        rw [hc] at hca
        simp only [consensusArgsOK, Bool.and_eq_true] at hca
        obtain ⟨⟨hk1, hk2⟩, hk3⟩ := hca
        obtain ⟨vct, h1⟩ := containsKey_exists _ _ hk1
        obtain ⟨vms, h2⟩ := containsKey_exists _ _ hk2
        obtain ⟨vpm, h3⟩ := containsKey_exists _ _ hk3
        cases hq : pyTruthy (pyGetD (searchStageData g.searchReply)
            "search_queries" JVal.jnull) with
        | false =>
            rw [pipeline_master_no_queries g tavily env nm cargs vct vms vpm _
              hc h1 h2 h3 hq
              (formatSearchExplanations_fallback_vd _ vct vms hq)]
            rfl
        | true =>
            cases hs : g.searchReply with
            | failed m =>
                rw [hs] at hq
                simp only [searchStageData] at hq
                rw [searchFallback_queries_falsy] at hq
                exact Bool.noConfusion hq
            | text s =>
                rw [hs] at hq
                simp only [searchStageData] at hq
                rw [searchFallback_queries_falsy] at hq
                exact Bool.noConfusion hq
            | fnCall ns sargs =>
                rw [hs] at hq hsearch
                simp only [searchStageData] at hq
                simp only [searchReplyOK] at hsearch
                rcases orb_true_elim _ _ hsearch with hbad | hgood
                · rw [hq] at hbad
                  simp at hbad
                · obtain ⟨hstr, hkey⟩ := andb_true_elim _ _ hgood
                  obtain ⟨xs, hxs⟩ := strListB_jarr _ hstr
                  have hne : xs.isEmpty = false := by
                    rw [hxs] at hq
                    simpa [pyTruthy] using hq
                  obtain ⟨vsr, hr⟩ := containsKey_exists _ _ hkey
                  obtain ⟨ss, hjoin⟩ :=
                    pyStrElems_of_strList xs (hxs ▸ hstr)
                  cases hvb : isFnCall g.validationReply with
                  | false =>
                      rw [pipeline_master_queries_valfail g tavily env nm ns
                        cargs sargs xs vct vms vpm vsr _ hc hs h1 h2 h3 hxs
                        hne hr hvb
                        (formatSearchExplanations_queries_vd sargs xs ss vct
                          vms hxs hne hjoin)]
                      rfl
                  | true =>
                      cases hvr : g.validationReply with
                      | failed m =>
                          rw [hvr] at hvb
                          exact Bool.noConfusion hvb
                      | text s2 =>
                          rw [hvr] at hvb
                          exact Bool.noConfusion hvb
                      | fnCall nv vargs =>
                          rw [hvr] at hvalid
                          simp only [validationReplyOK] at hvalid
                          obtain ⟨hrest, hcm⟩ := andb_true_elim _ _ hvalid
                          obtain ⟨hrest2, hvt⟩ := andb_true_elim _ _ hrest
                          obtain ⟨hkf, hkv⟩ := andb_true_elim _ _ hrest2
                          obtain ⟨vfc, hfc⟩ := containsKey_exists _ _ hkf
                          obtain ⟨vvc, hvc⟩ := containsKey_exists _ _ hkv
                          obtain ⟨fs, hfmt⟩ :=
                            formatSearchExplanations_ok_of_conditions sargs
                              vargs xs ss hxs hne hjoin hvt hcm
                          rw [pipeline_master_queries_valok g tavily env nm ns
                            nv cargs sargs vargs xs vct vms vpm vsr vfc vvc fs
                            hc hs hvr h1 h2 h3 hxs hne hr hfc hvc hfmt]
                          rfl

/-- Witness for C2: consensus and search succeed, the validation call is
down; the pipeline completes without raising. -/
theorem pipeline_call_failures_fall_back_without_raising_witness :
    raisesException
      (execute_consensus_pipeline validationDownOracle downTavily abEnv) =
      false :=
  pipeline_call_failures_fall_back_without_raising validationDownOracle
    downTavily abEnv (Or.inr rfl) rfl rfl

/-! ## Claim C5 -/

/-- Claim C5 (amended): when the validation generation call fails or returns no
function call, the web-validation stage passes the consensus transcript
through byte-for-byte (`final_consensus` is the very value stored as
`consensus_transcription`, with the agreement score as confidence).
Web-search failures alone do not force this pass-through: the searches
run (the trace records one call per query) and a succeeding generation
call's output would be used instead — see the counterexample. -/
theorem validation_call_failure_passes_consensus_through (g : GeminiOracle)
    (tavily : JVal → TavilyReply) (env : DispatchEnvelope) (nm ns : String)
    (cargs sargs : List (String × JVal)) (qs : List JVal)
    (vct vms vpm vsr : JVal) (ss : List String)
    (hc : g.consensusReply = GeminiReply.fnCall nm cargs)
    (hs : g.searchReply = GeminiReply.fnCall ns sargs)
    (h1 : List.lookup "consensus_transcription" cargs = some vct)
    (h2 : List.lookup "model_agreement_score" cargs = some vms)
    (h3 : List.lookup "primary_model" cargs = some vpm)
    (hq : pyGetD sargs "search_queries" JVal.jnull = JVal.jarr qs)
    (hne : qs.isEmpty = false)
    (hr : List.lookup "search_reasoning" sargs = some vsr)
    (hjoin : pyStrElems qs = Except.ok ss)
    (hv : isFnCall g.validationReply = false) :
    ∃ r, execute_consensus_pipeline g tavily env =
        Except.ok (PipelineOutput.success r,
          { webSearches := qs.map (fun q => (q, tavily q)),
            validationCalled := true }) ∧
      List.lookup "final_consensus" r.validationData = some vct ∧
      List.lookup "validation_confidence" r.validationData = some vms ∧
      List.lookup "consensus_transcription" r.consensusData = some vct := by
  refine ⟨_, pipeline_master_queries_valfail g tavily env nm ns cargs sargs qs
    vct vms vpm vsr _ hc hs h1 h2 h3 hq hne hr hv
    (formatSearchExplanations_queries_vd sargs qs ss vct vms hq hne hjoin),
    ?_, ?_, ?_⟩
  · exact lookup_fallback_fc vct vms
  · exact lookup_fallback_vc vct vms
  · exact h1

/-- Witness for C5: all searches fail and the validation call is down;
the validated transcript equals the consensus transcript exactly. -/
theorem validation_call_failure_passes_consensus_through_witness :
    validatedTranscriptOf
      (execute_consensus_pipeline validationDownOracle downTavily abEnv) =
      some "hello world" ∧
    consensusTranscriptOf
      (execute_consensus_pipeline validationDownOracle downTavily abEnv) =
      some "hello world" ∧
    validationConfidenceOf
      (execute_consensus_pipeline validationDownOracle downTavily abEnv) =
      some (JVal.jnum 1) := by
  obtain ⟨r, heq, hfc, hvc, hct⟩ :=
    validation_call_failure_passes_consensus_through validationDownOracle
      downTavily abEnv "establish_basic_consensus"
      "identify_search_worthy_terms"
      [("consensus_transcription", JVal.jstr "hello world"),
       ("model_agreement_score", JVal.jnum 1),
       ("primary_model", JVal.jstr "a")]
      [("search_queries", JVal.jarr [JVal.jstr "hello world origin"]),
       ("search_reasoning", JVal.jstr "verify the phrase")]
      [JVal.jstr "hello world origin"]
      (JVal.jstr "hello world") (JVal.jnum 1) (JVal.jstr "a")
      (JVal.jstr "verify the phrase") ["hello world origin"]
      rfl rfl rfl rfl rfl rfl rfl rfl rfl rfl
  refine ⟨?_, ?_, ?_⟩
  · rw [heq]
    simp only [validatedTranscriptOf, hfc]
  · rw [heq]
    simp only [consensusTranscriptOf, hct]
  · rw [heq]
    simp only [validationConfidenceOf, hvc]

/-! ## Claim C6 -/

/-- Claim C6 (amended): the code imposes no cap on the number of search
queries: whatever query list the search-analysis function call returns,
the web-validation stage performs exactly one web-search call per query
(no truncation to three). -/
theorem search_calls_equal_returned_queries (g : GeminiOracle)
    (tavily : JVal → TavilyReply) (env : DispatchEnvelope) (nm ns : String)
    (cargs sargs : List (String × JVal)) (qs : List JVal)
    (vct vms vpm vsr : JVal) (ss : List String)
    (hc : g.consensusReply = GeminiReply.fnCall nm cargs)
    (hs : g.searchReply = GeminiReply.fnCall ns sargs)
    (h1 : List.lookup "consensus_transcription" cargs = some vct)
    (h2 : List.lookup "model_agreement_score" cargs = some vms)
    (h3 : List.lookup "primary_model" cargs = some vpm)
    (hq : pyGetD sargs "search_queries" JVal.jnull = JVal.jarr qs)
    (hne : qs.isEmpty = false)
    (hr : List.lookup "search_reasoning" sargs = some vsr)
    (hjoin : pyStrElems qs = Except.ok ss)
    (hvalid : validationReplyOK g.validationReply = true) :
    webQueriesOf (execute_consensus_pipeline g tavily env) = some qs := by
  cases hvb : isFnCall g.validationReply with
  | false =>
      rw [pipeline_master_queries_valfail g tavily env nm ns cargs sargs qs
        vct vms vpm vsr _ hc hs h1 h2 h3 hq hne hr hvb
        (formatSearchExplanations_queries_vd sargs qs ss vct vms hq hne hjoin)]
      simp only [webQueriesOf, List.map_map]
      rw [show (Prod.fst ∘ fun q : JVal => (q, tavily q)) = id from rfl,
        List.map_id]
  | true =>
      cases hvr : g.validationReply with
      | failed m =>
          rw [hvr] at hvb
          exact Bool.noConfusion hvb
      | text s2 =>
          rw [hvr] at hvb
          exact Bool.noConfusion hvb
      | fnCall nv vargs =>
          rw [hvr] at hvalid
          simp only [validationReplyOK] at hvalid
          obtain ⟨hrest, hcm⟩ := andb_true_elim _ _ hvalid
          obtain ⟨hrest2, hvt⟩ := andb_true_elim _ _ hrest
          obtain ⟨hkf, hkv⟩ := andb_true_elim _ _ hrest2
          obtain ⟨vfc, hfc⟩ := containsKey_exists _ _ hkf
          obtain ⟨vvc, hvc⟩ := containsKey_exists _ _ hkv
          obtain ⟨fs, hfmt⟩ := formatSearchExplanations_ok_of_conditions sargs
            vargs qs ss hq hne hjoin hvt hcm
          rw [pipeline_master_queries_valok g tavily env nm ns nv cargs sargs
            vargs qs vct vms vpm vsr vfc vvc fs hc hs hvr h1 h2 h3 hq hne hr
            hfc hvc hfmt]
          simp only [webQueriesOf, List.map_map]
          rw [show (Prod.fst ∘ fun q : JVal => (q, tavily q)) = id from rfl,
            List.map_id]

/-- Witness for C6: four queries returned, four search calls made. -/
theorem search_calls_equal_returned_queries_witness :
    webQueriesOf (execute_consensus_pipeline fourQueryOracle okTavily abEnv) =
      some [JVal.jstr "q one", JVal.jstr "q two",
            JVal.jstr "q three", JVal.jstr "q four"] :=
  search_calls_equal_returned_queries fourQueryOracle okTavily abEnv
    "establish_basic_consensus" "identify_search_worthy_terms"
    [("consensus_transcription", JVal.jstr "hello world"),
     ("model_agreement_score", JVal.jnum 1),
     ("primary_model", JVal.jstr "a")]
    [("search_queries", JVal.jarr
        [JVal.jstr "q one", JVal.jstr "q two",
         JVal.jstr "q three", JVal.jstr "q four"]),
     ("search_reasoning", JVal.jstr "four uncertain terms")]
    [JVal.jstr "q one", JVal.jstr "q two", JVal.jstr "q three",
     JVal.jstr "q four"]
    (JVal.jstr "hello world") (JVal.jnum 1) (JVal.jstr "a")
    (JVal.jstr "four uncertain terms")
    ["q one", "q two", "q three", "q four"]
    rfl rfl rfl rfl rfl rfl rfl rfl rfl rfl

/-! ## Claim C7 -/

/-- Claim C7: when the search stage yields an empty query list (its own
fallback included), the web-validation stage performs zero web-search
calls and zero validation generation calls, and the validated transcript
is the consensus transcript with the agreement score as its
confidence. -/
theorem empty_query_list_skips_validation (g : GeminiOracle)
    (tavily : JVal → TavilyReply) (env : DispatchEnvelope) (nm : String)
    (cargs : List (String × JVal)) (vct vms vpm : JVal)
    (hc : g.consensusReply = GeminiReply.fnCall nm cargs)
    (h1 : List.lookup "consensus_transcription" cargs = some vct)
    (h2 : List.lookup "model_agreement_score" cargs = some vms)
    (h3 : List.lookup "primary_model" cargs = some vpm)
    (hq : pyGetD (searchStageData g.searchReply) "search_queries"
        JVal.jnull = JVal.jarr []) :
    ∃ r, execute_consensus_pipeline g tavily env =
        Except.ok (PipelineOutput.success r,
          { webSearches := [], validationCalled := false }) ∧
      List.lookup "final_consensus" r.validationData = some vct ∧
      List.lookup "validation_confidence" r.validationData = some vms ∧
      List.lookup "consensus_transcription" r.consensusData = some vct ∧
      List.lookup "model_agreement_score" r.consensusData = some vms := by
  have hqf : pyTruthy (pyGetD (searchStageData g.searchReply)
      "search_queries" JVal.jnull) = false := by
    rw [hq]
    rfl
  refine ⟨_, pipeline_master_no_queries g tavily env nm cargs vct vms vpm _
    hc h1 h2 h3 hqf (formatSearchExplanations_fallback_vd _ vct vms hqf),
    ?_, ?_, ?_, ?_⟩
  · exact lookup_fallback_fc vct vms
  · exact lookup_fallback_vc vct vms
  · exact h1
  · exact h2

/-- Witness for C7: the search stage returns an empty query list; no
search call and no validation call is made, and the consensus transcript
passes through. -/
theorem empty_query_list_skips_validation_witness :
    webQueriesOf (execute_consensus_pipeline noQueryOracle downTavily abEnv) =
      some [] ∧
    validationCalledOf
      (execute_consensus_pipeline noQueryOracle downTavily abEnv) =
      some false ∧
    validatedTranscriptOf
      (execute_consensus_pipeline noQueryOracle downTavily abEnv) =
      some "hello world" ∧
    consensusTranscriptOf
      (execute_consensus_pipeline noQueryOracle downTavily abEnv) =
      some "hello world" ∧
    validationConfidenceOf
      (execute_consensus_pipeline noQueryOracle downTavily abEnv) =
      some (JVal.jnum 1) := by
  obtain ⟨r, heq, hfc, hvc, hct, hms⟩ :=
    empty_query_list_skips_validation noQueryOracle downTavily abEnv
      "establish_basic_consensus"
      [("consensus_transcription", JVal.jstr "hello world"),
       ("model_agreement_score", JVal.jnum 1),
       ("primary_model", JVal.jstr "a")]
      (JVal.jstr "hello world") (JVal.jnum 1) (JVal.jstr "a")
      rfl rfl rfl rfl rfl
  refine ⟨?_, ?_, ?_, ?_, ?_⟩
  · rw [heq]
    rfl
  · rw [heq]
    rfl
  · rw [heq]
    simp only [validatedTranscriptOf, hfc]
  · rw [heq]
    simp only [consensusTranscriptOf, hct]
  · rw [heq]
    simp only [validationConfidenceOf, hvc]

/-! ## Claim C8 -/

/-- Claim C8 (amended): a failing generation sub-call contributes its own
empty fallback — a failed detection call (4A) yields an empty
`potential_particles` list with reasoning "No particles detected", and a
failed placement call (4B) yields an empty `detected_particles` list.
The stage does not otherwise force an empty list on empty phoneme-timing
input: a succeeding call's particles are forwarded verbatim (see the
counterexample). -/
theorem particle_subcall_failure_yields_empty_lists
    (phonemize : String → List String) (reply4a reply4b : GeminiReply)
    (consensusT allosaurusT : String) (timing : List TimedPhoneme)
    (accent : Option String) (fc : JVal) (analysis : ParticleAnalysis)
    (ipa : List (String × JVal))
    (h4a : isFnCall reply4a = false) (h4b : isFnCall reply4b = false) :
    detect_discourse_particles_with_ipa phonemize reply4a consensusT
        allosaurusT timing none accent =
      [("potential_particles", JVal.jarr []),
       ("llm_recommended_transcription", JVal.jstr ""),
       ("reasoning", JVal.jstr "No particles detected")] ∧
    List.lookup "detected_particles"
      (step4b_particle_data reply4b fc analysis ipa) =
      some (JVal.jarr []) := by
  constructor
  · unfold detect_discourse_particles_with_ipa
    cases reply4a with
    | fnCall n a => exact absurd h4a (by simp [isFnCall])
    | failed m => rfl
    | text s => rfl
  · unfold step4b_particle_data
    cases reply4b with
    | fnCall n a => exact absurd h4b (by simp [isFnCall])
    | failed m => rfl
    | text s => rfl

/-- Witness for C8 at a concrete failing run (empty timing, both
generation sub-calls down). -/
theorem particle_subcall_failure_yields_empty_lists_witness :
    detect_discourse_particles_with_ipa noPhonemize
        (GeminiReply.failed "HTTP 500") "ok can" "" [] none
        (some "singaporean") =
      [("potential_particles", JVal.jarr []),
       ("llm_recommended_transcription", JVal.jstr ""),
       ("reasoning", JVal.jstr "No particles detected")] ∧
    List.lookup "detected_particles"
      (step4b_particle_data (GeminiReply.failed "HTTP 500")
        (JVal.jstr "ok can")
        (prepare_particle_analysis_data noPhonemize "ok can" [] []) []) =
      some (JVal.jarr []) :=
  particle_subcall_failure_yields_empty_lists noPhonemize
    (GeminiReply.failed "HTTP 500") (GeminiReply.failed "HTTP 500")
    "ok can" "" [] (some "singaporean") (JVal.jstr "ok can")
    (prepare_particle_analysis_data noPhonemize "ok can" [] []) []
    rfl rfl
